import Mathlib

/-!
Formal model of the MultiStat heating controller core, translated from the
Python sources:

* `rootfs/app/opentherm.py` — the OpenTherm frame codec and boiler link
  (`OpenThermProtocol`, `OpenThermController`);
* `multistat/rootfs/app/pid_controller.py` — the PID feedback controller
  (`PIDController`);
* `rootfs/app/room_manager.py` — the room/valve data model and the
  room-selection policy (`HRVValve`, `Room`, `RoomManager`).

Machine bytes are modelled as natural numbers below 256; Python floats are
modelled as rationals; fallible operations (the `bytes(...)` constructor and
`struct.pack`, which raise on out-of-range elements, and the request/response
exchanges) return `Option`.  `Option.none` for an exchange models an uncaught
Python exception.
-/

/-! ## Protocol codec (opentherm.py, `OpenThermProtocol`) -/

/-- Python `bytes(l)` constructor: succeeds only when every element is in
`range(0, 256)`; otherwise it raises `ValueError`, modelled as `none`. -/
def pyBytes (l : List Nat) : Option (List Nat) :=
  if l.all (fun b => b < 256) then some l else none

/-- `OpenThermProtocol._calculate_checksum`: `sum(data) & 0xFF`. -/
def calculate_checksum (data : List Nat) : Nat :=
  data.sum % 256

/-- `OpenThermProtocol._create_message(msg_type, data_id, data_value)`.
`struct.pack('>H', v)` demands `v < 2^16` (else `struct.error`, modelled as
`none`); the two `bytes([...])` constructions fail when `msb_data` or
`lsb_data` leaves `range(0, 256)`. -/
def create_message (msg_type data_id data_value : Nat) : Option (List Nat) :=
  let msb := (msg_type <<< 6) ||| ((data_id >>> 8) &&& 0x3F)
  let lsb := data_id &&& 0xFF
  if data_value < 65536 then
    let db0 := data_value / 256
    let db1 := data_value % 256
    let msb_data := (msb <<< 8) ||| db0
    let lsb_data := (lsb <<< 8) ||| db1
    match pyBytes [0x00, msb_data, lsb_data, 0x00] with
    | none => none
    | some msg =>
        let checksum := calculate_checksum ((msg.drop 1).take 2)
        pyBytes [0x00, msb_data, lsb_data, checksum]
  else none

/-- `OpenThermProtocol._parse_message(msg)`: length check, checksum over
bytes 1–2, then field extraction. -/
def parse_message (msg : List Nat) : Option (Nat × Nat × Nat) :=
  match msg with
  | [_b0, b1, b2, b3] =>
      if calculate_checksum [b1, b2] ≠ b3 then none
      else some ((b1 >>> 6) &&& 0x03,
                 ((b1 &&& 0x3F) <<< 8) ||| b2,
                 ((b1 &&& 0x0F) <<< 12) ||| ((b2 &&& 0xFF) <<< 4))
  | _ => none

/-- A number can only shrink below one of its or-operands if bits vanish,
which bitwise or never does: `a ≤ a ||| b`. -/
lemma nat_le_or_left (a b : Nat) : a ≤ a ||| b := by
  have h : (a ||| b) &&& a = a := by
    apply Nat.eq_of_testBit_eq
    intro i
    simp only [Nat.testBit_or, Nat.testBit_and]
    cases ha : a.testBit i <;> cases hb : b.testBit i <;> rfl
  calc a = (a ||| b) &&& a := h.symm
    _ ≤ a ||| b := Nat.and_le_left

/-- Any write-request for data id TSET (= 1) dies in `_create_message`:
`msb = (1 << 6) | 0 = 64`, so `msb_data = (64 << 8) | db0 ≥ 16384` and
`bytes([0x00, msb_data, ...])` raises `ValueError`, whatever the value. -/
lemma create_message_write_tset_none (data_value : Nat) :
    create_message 1 1 data_value = none := by
  unfold create_message
  by_cases h : data_value < 65536
  · simp only [h, if_true]
    have hfail : pyBytes [0x00,
        (((1 <<< 6) ||| ((1 >>> 8) &&& 0x3F)) <<< 8) ||| data_value / 256,
        (((1 &&& 0xFF) <<< 8) ||| data_value % 256), 0x00] = none := by
      have e1 : (((1 : Nat) <<< 6) ||| ((1 >>> 8) &&& 0x3F)) <<< 8 = 16384 := by decide
      have hmsb : (16384 : Nat) ≤ 16384 ||| data_value / 256 := nat_le_or_left _ _
      unfold pyBytes
      simp only [e1, List.all_cons, List.all_nil]
      norm_num
      omega
    simp only [hfail]
  · simp [h]

/-- C1: the TSET round trip crashes before any frame exists.  Encoding the
write-request for 21.5 °C (`temp_value = int(21.5 * 10) & 0xFFFF = 215`)
raises `ValueError` inside `_create_message`, so decoding never gets a frame
to recover 21.5 from. -/
theorem tset_roundtrip_encode_crashes :
    create_message 1 1 215 = none :=
  create_message_write_tset_none 215

/-- C2: encoding does fail.  The read-request for TBOILER (data id 25) that
`get_boiler_temperature` sends has `lsb_data = (25 << 8) | 0 = 6400 > 255`,
so `bytes([...])` raises `ValueError` instead of producing the 4-byte frame. -/
theorem create_message_tboiler_crashes :
    create_message 0 25 0 = none := by decide

/-- Low nibble of the extracted data value: both or-operands are multiples
of 16, so the or is as well. -/
lemma data_value_low_nibble (x y : Nat) : (x <<< 12 ||| y <<< 4) % 16 = 0 := by
  have h15 : (15 : Nat) = 2 ^ 4 - 1 := by norm_num
  have h16 : (16 : Nat) = 2 ^ 4 := by norm_num
  have h1 : (x <<< 12 ||| y <<< 4) % 16 = (x <<< 12 ||| y <<< 4) &&& 15 := by
    rw [h15, h16, Nat.and_pow_two_sub_one_eq_mod]
  rw [h1, Nat.and_distrib_right]
  have hx : x <<< 12 &&& 15 = 0 := by
    rw [h15, Nat.and_pow_two_sub_one_eq_mod, Nat.shiftLeft_eq]
    norm_num
    omega
  have hy : y <<< 4 &&& 15 = 0 := by
    rw [h15, Nat.and_pow_two_sub_one_eq_mod, Nat.shiftLeft_eq]
    norm_num
  rw [hx, hy]
  decide

/-- Upper bound of the extracted data value. -/
lemma data_value_upper (x y : Nat) (hx : x ≤ 15) (hy : y ≤ 255) :
    (x <<< 12 ||| y <<< 4) ≤ 65520 := by
  have hlt : (x <<< 12 ||| y <<< 4) < 65536 := by
    have h : (65536 : Nat) = 2 ^ 16 := by norm_num
    rw [h]
    refine Nat.or_lt_two_pow ?_ ?_
    · rw [Nat.shiftLeft_eq]; omega
    · rw [Nat.shiftLeft_eq]; omega
  have hmod := data_value_low_nibble x y
  omega

/-- C4: decoding fails exactly on frames that are not 4 bytes long or whose
byte 3 differs from `(byte1 + byte2) & 0xFF`; on every other 4-byte frame it
returns the three fields of the specification. -/
theorem parse_message_spec (msg : List Nat) (hbytes : ∀ b ∈ msg, b < 256) :
    (msg.length ≠ 4 → parse_message msg = none) ∧
    (∀ b0 b1 b2 b3 : Nat, msg = [b0, b1, b2, b3] →
      (b3 ≠ (b1 + b2) % 256 → parse_message msg = none) ∧
      (b3 = (b1 + b2) % 256 →
        parse_message msg =
          some ((b1 >>> 6) &&& 0x03,
                ((b1 &&& 0x3F) <<< 8) ||| b2,
                ((b1 &&& 0x0F) <<< 12) ||| (b2 <<< 4)))) := by
  constructor
  · intro hlen
    rcases msg with _ | ⟨b0, _ | ⟨b1, _ | ⟨b2, _ | ⟨b3, _ | ⟨b4, rest⟩⟩⟩⟩⟩ <;>
      first
        | rfl
        | exact absurd rfl hlen
  · intro b0 b1 b2 b3 hmsg
    subst hmsg
    have hsum : calculate_checksum [b1, b2] = (b1 + b2) % 256 := by
      unfold calculate_checksum
      simp [List.sum]
    constructor
    · intro hne
      simp only [parse_message]
      rw [hsum, if_pos (fun h => hne h.symm)]
    · intro heq
      have hb2 : b2 < 256 := hbytes b2 (by simp)
      have hmask : b2 &&& 0xFF = b2 := by
        have h255 : (0xFF : Nat) = 2 ^ 8 - 1 := by norm_num
        rw [h255, Nat.and_pow_two_sub_one_eq_mod]
        exact Nat.mod_eq_of_lt hb2
      simp only [parse_message]
      rw [hsum, if_neg (by omega), hmask]

/-- Witness frame for C4: `[0x00, 0x4D, 0x70, 0xBD]` has a valid checksum
(`(77 + 112) % 256 = 189`) and decodes to kind 1, id 3440, value 55040. -/
theorem parse_message_spec_witness :
    parse_message [0, 77, 112, 189] = some (1, 3440, 55040) := by
  have h := (parse_message_spec [0, 77, 112, 189] (by decide)).2 0 77 112 189 rfl
  have h2 := h.2 (by decide)
  rw [h2]
  decide

/-! ## Boiler temperature read-out (opentherm.py, `get_boiler_temperature`) -/

/-- Response half of `OpenThermProtocol.get_boiler_temperature`: an empty
read is falsy; a parsed reply is accepted when its data id is TBOILER (25),
and the temperature is recovered as `(data_value >> 4) / 10.0`. -/
def get_boiler_temperature_result (response : List Nat) : Option ℚ :=
  if response.isEmpty then none
  else
    match parse_message response with
    | some (_msg_type, data_id, data_value) =>
        if data_id = 25 then some (((data_value >>> 4 : Nat) : ℚ) / 10)
        else none
    | none => none

/-- Full `OpenThermProtocol.get_boiler_temperature`: the request frame is
built first, and its `ValueError` (see `create_message_tboiler_crashes`)
aborts the call before the exchange; outer `none` models that exception. -/
def get_boiler_temperature (response : List Nat) : Option (Option ℚ) :=
  match create_message 0 25 0 with
  | none => none
  | some _msg => some (get_boiler_temperature_result response)

/-- The TBOILER read-request frame also dies in `bytes([...])`. -/
lemma create_message_read_tboiler_none : create_message 0 25 0 = none := by
  decide

/-- C10: a successfully decoded data value has a zero low nibble and is at
most `0xFFF0`, so the fixed-point temperature `(dataValue >> 4) / 10.0` lies
in `[0, 409.5]`; every temperature the boiler read-out can produce is in
that interval, and in particular never negative. -/
theorem data_value_bounds :
    (∀ (msg : List Nat) (t data_id dv : Nat),
      parse_message msg = some (t, data_id, dv) →
        dv &&& 0x0F = 0 ∧ dv ≤ 0xFFF0 ∧
        0 ≤ ((dv >>> 4 : Nat) : ℚ) / 10 ∧ ((dv >>> 4 : Nat) : ℚ) / 10 ≤ 819 / 2) ∧
    (∀ (response : List Nat) (q : ℚ),
      get_boiler_temperature_result response = some q → 0 ≤ q ∧ q ≤ 819 / 2) ∧
    (∀ (response : List Nat) (r : Option ℚ) (q : ℚ),
      get_boiler_temperature response = some r → r = some q → 0 ≤ q) := by
  have main : ∀ (msg : List Nat) (t data_id dv : Nat),
      parse_message msg = some (t, data_id, dv) →
        dv &&& 0x0F = 0 ∧ dv ≤ 0xFFF0 ∧
        0 ≤ ((dv >>> 4 : Nat) : ℚ) / 10 ∧ ((dv >>> 4 : Nat) : ℚ) / 10 ≤ 819 / 2 := by
    intro msg t data_id dv hp
    rcases msg with _ | ⟨b0, _ | ⟨b1, _ | ⟨b2, _ | ⟨b3, _ | ⟨b4, rest⟩⟩⟩⟩⟩ <;>
        simp only [parse_message] at hp <;>
      try exact Option.noConfusion hp
    by_cases hc : calculate_checksum [b1, b2] ≠ b3
    · rw [if_pos hc] at hp
      exact Option.noConfusion hp
    · rw [if_neg hc, Option.some.injEq, Prod.mk.injEq, Prod.mk.injEq] at hp
      obtain ⟨-, -, hdv⟩ := hp
      subst hdv
      have hand : ((b1 &&& 0x0F) <<< 12 ||| (b2 &&& 0xFF) <<< 4) &&& 0x0F =
          ((b1 &&& 0x0F) <<< 12 ||| (b2 &&& 0xFF) <<< 4) % 16 := by
        rw [show (0x0F : Nat) = 2 ^ 4 - 1 by norm_num, Nat.and_pow_two_sub_one_eq_mod]
      have hmod := data_value_low_nibble (b1 &&& 0x0F) (b2 &&& 0xFF)
      have hup := data_value_upper (b1 &&& 0x0F) (b2 &&& 0xFF)
        Nat.and_le_right Nat.and_le_right
      refine ⟨by rw [hand]; exact hmod, hup, by positivity, ?_⟩
      have hdiv : ((b1 &&& 0x0F) <<< 12 ||| (b2 &&& 0xFF) <<< 4) >>> 4 ≤ 4095 := by
        rw [Nat.shiftRight_eq_div_pow]
        omega
      have hcast : ((((b1 &&& 0x0F) <<< 12 ||| (b2 &&& 0xFF) <<< 4) >>> 4 : Nat) : ℚ) ≤ 4095 := by
        exact_mod_cast hdiv
      linarith
  refine ⟨main, ?_, ?_⟩
  · intro response q hq
    unfold get_boiler_temperature_result at hq
    by_cases he : response.isEmpty
    · rw [if_pos he] at hq
      exact Option.noConfusion hq
    · rw [if_neg he] at hq
      rcases hp : parse_message response with - | ⟨t, data_id, dv⟩
      · rw [hp] at hq
        exact Option.noConfusion hq
      · rw [hp] at hq
        dsimp only at hq
        by_cases hid : data_id = 25
        · rw [if_pos hid] at hq
          obtain ⟨-, -, h0, h409⟩ := main response t data_id dv hp
          rw [Option.some.injEq] at hq
          exact ⟨hq ▸ h0, hq ▸ h409⟩
        · rw [if_neg hid] at hq
          exact Option.noConfusion hq
  · intro response r q hr
    unfold get_boiler_temperature at hr
    rw [create_message_read_tboiler_none] at hr
    exact Option.noConfusion hr

/-- Witness for C10: the reply `[0x00, 0x40, 0x19, 0x59]` parses to data id
25 (TBOILER) with data value 400, temperature 2.5 °C. -/
theorem data_value_bounds_witness :
    ((400 : Nat) &&& 0x0F = 0 ∧ (400 : Nat) ≤ 0xFFF0 ∧
      0 ≤ ((400 >>> 4 : Nat) : ℚ) / 10 ∧ ((400 >>> 4 : Nat) : ℚ) / 10 ≤ 819 / 2) ∧
    ∃ q : ℚ, get_boiler_temperature_result [0, 64, 25, 89] = some q ∧
      0 ≤ q ∧ q ≤ 819 / 2 :=
  ⟨data_value_bounds.1 [0, 64, 25, 89] 1 25 400 (by decide),
   ⟨_, rfl, data_value_bounds.2.1 [0, 64, 25, 89] _ rfl⟩⟩

/-! ## PID controller (pid_controller.py, `PIDController`) -/

/-- State of `PIDController`.  `_last_time` and `_last_error` are written
and cleared together on every source path (`__init__`, first `update`,
`dt > 0` branch, `reset`), so they are one optional pair here. -/
structure PIDController where
  kp : ℚ
  ki : ℚ
  kd : ℚ
  setpoint : ℚ
  output_limits : ℚ × ℚ
  integral : ℚ
  last : Option (ℚ × ℚ)
deriving DecidableEq

/-- `PIDController.set_setpoint`: store the target and zero the integral. -/
def PIDController.set_setpoint (c : PIDController) (setpoint : ℚ) : PIDController :=
  { c with setpoint := setpoint, integral := 0 }

/-- `PIDController._clamp_output`: `max(lo, min(hi, output))`. -/
def PIDController.clamp_output (c : PIDController) (output : ℚ) : ℚ :=
  max c.output_limits.1 (min c.output_limits.2 output)

/-- `PIDController.update(current_value)`; `time.time()` is passed in as
`current_time`.  Returns the output and the successor state. -/
def PIDController.update (c : PIDController) (current_time current_value : ℚ) :
    ℚ × PIDController :=
  let error := c.setpoint - current_value
  match c.last with
  | none =>
      (c.clamp_output (c.kp * error), { c with last := some (current_time, error) })
  | some (last_time, last_error) =>
      let dt := current_time - last_time
      if dt ≤ 0 then (c.clamp_output (c.kp * error), c)
      else
        let integral' := c.integral + error * dt
        let p_term := c.kp * error
        let i_term := c.ki * integral'
        let d_term := c.kd * ((error - last_error) / dt)
        (c.clamp_output (p_term + i_term + d_term),
         { c with integral := integral', last := some (current_time, error) })

/-- A whole sequence of `update` calls: each element of `calls` is the pair
(time of the call, measured value); returns the outputs and final state. -/
def PIDController.run_updates (c : PIDController) : List (ℚ × ℚ) → List ℚ × PIDController
  | [] => ([], c)
  | p :: rest =>
      ((c.update p.1 p.2).1 :: ((c.update p.1 p.2).2.run_updates rest).1,
       ((c.update p.1 p.2).2.run_updates rest).2)

/-- `update` only touches the integral accumulator and the last sample. -/
lemma PIDController.update_state (c : PIDController) (t v : ℚ) :
    ∃ i l, (c.update t v).2 = { c with integral := i, last := l } := by
  unfold update
  cases hl : c.last with
  | none => exact ⟨c.integral, some (t, c.setpoint - v), rfl⟩
  | some p =>
      obtain ⟨lt, le⟩ := p
      dsimp only
      by_cases hdt : t - lt ≤ 0
      · rw [if_pos hdt]
        exact ⟨c.integral, c.last, rfl⟩
      · rw [if_neg hdt]
        exact ⟨c.integral + (c.setpoint - v) * (t - lt), some (t, c.setpoint - v), rfl⟩

/-- With zero integral and derivative gains every branch of `update` returns
the clamped proportional term. -/
lemma PIDController.update_out_p (c : PIDController) (t v : ℚ)
    (hki : c.ki = 0) (hkd : c.kd = 0) :
    (c.update t v).1 = c.clamp_output (c.kp * (c.setpoint - v)) := by
  unfold update
  cases hl : c.last with
  | none => rfl
  | some p =>
      obtain ⟨lt, le⟩ := p
      dsimp only
      by_cases hdt : t - lt ≤ 0
      · rw [if_pos hdt]
      · rw [if_neg hdt]
        dsimp only
        rw [hki, hkd, zero_mul, zero_mul, add_zero, add_zero]

/-- Every branch of `update` returns a value produced by `_clamp_output`. -/
lemma PIDController.update_out_clamped (c : PIDController) (t v : ℚ) :
    ∃ y, (c.update t v).1 = c.clamp_output y := by
  unfold update
  cases hl : c.last with
  | none => exact ⟨_, rfl⟩
  | some p =>
      obtain ⟨lt, le⟩ := p
      dsimp only
      by_cases hdt : t - lt ≤ 0
      · rw [if_pos hdt]
        exact ⟨_, rfl⟩
      · rw [if_neg hdt]
        exact ⟨_, rfl⟩

/-- `_clamp_output` lands inside the configured bounds whenever they are
ordered. -/
lemma PIDController.clamp_output_mem (c : PIDController) (x : ℚ)
    (h : c.output_limits.1 ≤ c.output_limits.2) :
    c.output_limits.1 ≤ c.clamp_output x ∧ c.clamp_output x ≤ c.output_limits.2 := by
  unfold clamp_output
  exact ⟨le_max_left _ _, max_le h (min_le_left _ _)⟩

/-- C8: `set_setpoint` stores the new target and zeroes the integral
accumulator, leaving gains, limits, and the last time/error pair alone. -/
theorem set_setpoint_spec (c : PIDController) (v : ℚ) :
    (c.set_setpoint v).setpoint = v ∧ (c.set_setpoint v).integral = 0 ∧
    (c.set_setpoint v).kp = c.kp ∧ (c.set_setpoint v).ki = c.ki ∧
    (c.set_setpoint v).kd = c.kd ∧ (c.set_setpoint v).last = c.last ∧
    (c.set_setpoint v).output_limits = c.output_limits :=
  ⟨rfl, rfl, rfl, rfl, rfl, rfl, rfl⟩

/-- C5: with `ki = kd = 0` every call in any sequence of updates returns
exactly the clamped proportional response `clamp(kp * (target − measurement))`. -/
theorem pid_proportional_only (c : PIDController) (calls : List (ℚ × ℚ))
    (hki : c.ki = 0) (hkd : c.kd = 0) :
    (c.run_updates calls).1 =
      calls.map (fun p => c.clamp_output (c.kp * (c.setpoint - p.2))) := by
  induction calls generalizing c with
  | nil => rfl
  | cons p rest ih =>
      simp only [PIDController.run_updates, List.map_cons]
      obtain ⟨i, l, hstate⟩ := c.update_state p.1 p.2
      rw [c.update_out_p p.1 p.2 hki hkd,
        ih (c.update p.1 p.2).2 (by rw [hstate]; exact hki) (by rw [hstate]; exact hkd),
        hstate]
      rfl

/-- Witness for C5: a pure-P controller (`kp = 1`, target 0, bounds
`[0, 100]`), first call with measurement −5, outputs exactly `[5]`. -/
theorem pid_proportional_only_witness :
    (PIDController.run_updates
      { kp := 1, ki := 0, kd := 0, setpoint := 0, output_limits := (0, 100),
        integral := 0, last := none } [(1, -5)]).1 = [5] := by
  rw [pid_proportional_only _ _ rfl rfl]
  norm_num [PIDController.clamp_output]

/-! ## Rooms and valves (room_manager.py) -/

/-- `HRVValve` dataclass: configuration, live position, owned controller. -/
structure HRVValve where
  name : String
  valve_entity : String
  kp : ℚ
  ki : ℚ
  kd : ℚ
  current_position : ℚ
  pid_controller : PIDController
deriving DecidableEq

/-- `HRVValve(...)` construction together with `__post_init__`: position 0,
controller with the valve's gains, setpoint 0 and limits `(0, 100)`. -/
def HRVValve.init (name valve_entity : String) (kp ki kd : ℚ) : HRVValve :=
  { name := name, valve_entity := valve_entity, kp := kp, ki := ki, kd := kd,
    current_position := 0,
    pid_controller :=
      { kp := kp, ki := ki, kd := kd, setpoint := 0, output_limits := (0, 100),
        integral := 0, last := none } }

/-- `Room` dataclass. -/
structure Room where
  name : String
  target_temp : ℚ
  current_temp_sensor : String
  hrv_entity : String
  hrv_valves : List HRVValve
  current_temp : Option ℚ
deriving DecidableEq

/-- `Room.get_temperature_difference`: `abs(target - current)`, 0 when no
measurement has arrived yet. -/
def Room.get_temperature_difference (r : Room) : ℚ :=
  match r.current_temp with
  | none => 0
  | some c => |r.target_temp - c|

/-- `Room.needs_heating`: current temperature present and strictly below
target. -/
def Room.needs_heating (r : Room) : Bool :=
  match r.current_temp with
  | none => false
  | some c => decide (c < r.target_temp)

/-- `RoomManager.calculate_hrv_positions(room)`: skip rooms without a
measurement; otherwise for each valve set the controller target to 0, feed
the negated error, clamp the result to `[0, 100]`, and store it. -/
def calculate_hrv_positions (room : Room) (now : ℚ) : Room :=
  match room.current_temp with
  | none => room
  | some current =>
      let error := room.target_temp - current
      { room with hrv_valves := room.hrv_valves.map (fun valve =>
          let pid1 := valve.pid_controller.set_setpoint 0
          let upd := pid1.update now (-error)
          let valve_position := max 0 (min 100 upd.1)
          { valve with current_position := valve_position,
                       pid_controller := upd.2 }) }

/-- The list comprehension of `get_room_with_highest_difference`: rooms that
need heating and have a current temperature. -/
def rooms_needing_heat (rooms : List Room) : List Room :=
  rooms.filter (fun r => r.needs_heating && r.current_temp.isSome)

/-- Python `max(iterable, key=...)` over a non-empty list: scan keeping the
current best, replacing it only on a strictly larger key. -/
def pick_max_by {α : Type} (key : α → ℚ) : α → List α → α
  | b, [] => b
  | b, x :: xs => pick_max_by key (if key b < key x then x else b) xs

/-- `RoomManager.get_room_with_highest_difference`. -/
def get_room_with_highest_difference (rooms : List Room) : Option Room :=
  match rooms with
  | [] => none
  | _ :: _ =>
      match rooms_needing_heat rooms with
      | [] => none
      | h :: t => some (pick_max_by Room.get_temperature_difference h t)

/-- `RoomManager.get_control_temperatures`. -/
def get_control_temperatures (rooms : List Room) : Option (ℚ × ℚ) :=
  match get_room_with_highest_difference rooms with
  | some room =>
      match room.current_temp with
      | some c => some (room.target_temp, c)
      | none => none
  | none => none

/-- The Python `max` scan returns an element whose key dominates the whole
list, and the element it returns sits at the first position achieving that
key (every earlier element has a strictly smaller key). -/
lemma pick_max_by_spec {α : Type} (key : α → ℚ) :
    ∀ (l : List α) (b : α),
      key b ≤ key (pick_max_by key b l) ∧
      (∀ y ∈ l, key y ≤ key (pick_max_by key b l)) ∧
      (pick_max_by key b l = b ∨
        ∃ i, l.get? i = some (pick_max_by key b l) ∧
          key b < key (pick_max_by key b l) ∧
          ∀ y ∈ l.take i, key y < key (pick_max_by key b l)) := by
  intro l
  induction l with
  | nil =>
      intro b
      exact ⟨le_refl _, by simp, Or.inl rfl⟩
  | cons x xs ih =>
      intro b
      by_cases hc : key b < key x
      · have hpick : pick_max_by key b (x :: xs) = pick_max_by key x xs := by
          simp [pick_max_by, hc]
        obtain ⟨h1, h2, h3⟩ := ih x
        rw [hpick]
        refine ⟨le_trans (le_of_lt hc) h1, ?_, ?_⟩
        · intro y hy
          rcases List.mem_cons.mp hy with rfl | hy
          · exact h1
          · exact h2 y hy
        · right
          rcases h3 with heq | ⟨i, hget, hlt, htake⟩
          · refine ⟨0, ?_, ?_, ?_⟩
            · rw [heq]
              rfl
            · rw [heq]
              exact hc
            · intro y hy
              exact absurd hy (List.not_mem_nil y)
          · refine ⟨i + 1, by simpa using hget, lt_trans hc hlt, ?_⟩
            intro y hy
            rw [List.take_succ_cons] at hy
            rcases List.mem_cons.mp hy with rfl | hy
            · exact hlt
            · exact htake y hy
      · have hpick : pick_max_by key b (x :: xs) = pick_max_by key b xs := by
          simp [pick_max_by, hc]
        obtain ⟨h1, h2, h3⟩ := ih b
        rw [hpick]
        refine ⟨h1, ?_, ?_⟩
        · intro y hy
          rcases List.mem_cons.mp hy with rfl | hy
          · exact le_trans (le_of_not_lt hc) h1
          · exact h2 y hy
        · rcases h3 with heq | ⟨i, hget, hlt, htake⟩
          · exact Or.inl heq
          · right
            refine ⟨i + 1, by simpa using hget, hlt, ?_⟩
            intro y hy
            rw [List.take_succ_cons] at hy
            rcases List.mem_cons.mp hy with rfl | hy
            · exact lt_of_le_of_lt (le_of_not_lt hc) hlt
            · exact htake y hy

/-- A selected room is one of the rooms that passed the heating filter. -/
lemma selected_mem (rooms : List Room) (r : Room)
    (h : get_room_with_highest_difference rooms = some r) :
    r ∈ rooms_needing_heat rooms := by
  unfold get_room_with_highest_difference at h
  rcases rooms with - | ⟨r0, rest⟩
  · exact Option.noConfusion h
  · rcases hL : rooms_needing_heat (r0 :: rest) with - | ⟨h0, t⟩ <;> rw [hL] at h
    · exact Option.noConfusion h
    · rw [Option.some.injEq] at h
      subst h
      rcases (pick_max_by_spec Room.get_temperature_difference t h0).2.2 with
        heq | ⟨i, hget, -, -⟩
      · rw [heq]
        exact List.mem_cons_self _ _
      · exact List.mem_cons_of_mem _ (List.get?_mem hget)

/-- Everything in the heating filter has a current temperature. -/
lemma needing_isSome {rooms : List Room} {r : Room}
    (h : r ∈ rooms_needing_heat rooms) : ∃ c, r.current_temp = some c := by
  unfold rooms_needing_heat at h
  have hp := (List.mem_filter.mp h).2
  cases hct : r.current_temp with
  | none =>
      rw [hct] at hp
      simp at hp
  | some c => exact ⟨c, rfl⟩

/-- `get_room_with_highest_difference` in terms of the heating filter: the
leading emptiness test on `self.rooms` is subsumed, because an empty room
list filters to an empty list. -/
lemma get_room_eq (rooms : List Room) :
    get_room_with_highest_difference rooms =
      match rooms_needing_heat rooms with
      | [] => none
      | h :: t => some (pick_max_by Room.get_temperature_difference h t) := by
  cases rooms with
  | nil => rfl
  | cons r0 rest => rfl

/-- C3: the selection policy filters exactly the rooms that need heating,
returns `none` iff that filter is empty, otherwise the first room attaining
the maximum temperature difference (strictly larger than everything before
it, at least as large as everything in the filter), and
`get_control_temperatures` hands back exactly the selected room's
(target, current) pair. -/
theorem room_selection_spec (rooms : List Room) :
    (∀ r : Room, r.needs_heating = true ↔
      ∃ c, r.current_temp = some c ∧ c < r.target_temp) ∧
    rooms_needing_heat rooms = rooms.filter (fun r => r.needs_heating) ∧
    (get_room_with_highest_difference rooms = none ↔ rooms_needing_heat rooms = []) ∧
    (∀ r, get_room_with_highest_difference rooms = some r →
      ∃ i, (rooms_needing_heat rooms).get? i = some r ∧
        (∀ y ∈ (rooms_needing_heat rooms).take i,
          y.get_temperature_difference < r.get_temperature_difference) ∧
        ∀ y ∈ rooms_needing_heat rooms,
          y.get_temperature_difference ≤ r.get_temperature_difference) ∧
    (∀ r, get_room_with_highest_difference rooms = some r →
      ∃ c, r.current_temp = some c ∧
        get_control_temperatures rooms = some (r.target_temp, c)) ∧
    (get_room_with_highest_difference rooms = none →
      get_control_temperatures rooms = none) := by
  refine ⟨?_, ?_, ?_, ?_, ?_, ?_⟩
  · intro r
    cases hct : r.current_temp <;> simp [Room.needs_heating, hct]
  · unfold rooms_needing_heat
    apply List.filter_congr
    intro r hr
    cases hct : r.current_temp <;> simp [Room.needs_heating, hct]
  · rw [get_room_eq]
    constructor
    · intro h
      rcases hL : rooms_needing_heat rooms with - | ⟨h0, t⟩
      · rfl
      · rw [hL] at h
        exact Option.noConfusion h
    · intro hL
      rw [hL]
  · intro r h
    rw [get_room_eq] at h
    rcases hL : rooms_needing_heat rooms with - | ⟨h0, t⟩
    · rw [hL] at h
      exact Option.noConfusion h
    · rw [hL] at h
      rw [show (match h0 :: t with
          | [] => none
          | h :: t => some (pick_max_by Room.get_temperature_difference h t)) =
          some (pick_max_by Room.get_temperature_difference h0 t) from rfl,
        Option.some.injEq] at h
      subst h
      obtain ⟨h1, h2, h3⟩ := pick_max_by_spec Room.get_temperature_difference t h0
      rcases h3 with heq | ⟨i, hget, hlt, htake⟩
      · refine ⟨0, ?_, ?_, ?_⟩
        · rw [heq]
          rfl
        · intro y hy
          simp at hy
        · intro y hy
          rcases List.mem_cons.mp hy with rfl | hy
          · rw [heq]
          · exact h2 y hy
      · refine ⟨i + 1, by simpa using hget, ?_, ?_⟩
        · intro y hy
          rw [List.take_succ_cons] at hy
          rcases List.mem_cons.mp hy with rfl | hy
          · exact hlt
          · exact htake y hy
        · intro y hy
          rcases List.mem_cons.mp hy with rfl | hy
          · exact h1
          · exact h2 y hy
  · intro r h
    obtain ⟨c, hc⟩ := needing_isSome (selected_mem rooms r h)
    refine ⟨c, hc, ?_⟩
    unfold get_control_temperatures
    rw [h]
    dsimp only
    rw [hc]
  · intro h
    unfold get_control_temperatures
    rw [h]

/-- C7: a room without a measurement is never the selected room, and
recalculating its valve positions is the identity on the whole room: every
valve keeps its position and its controller state. -/
theorem absent_room_never_selected (rooms : List Room) (room : Room) (now : ℚ)
    (h : room.current_temp = none) :
    get_room_with_highest_difference rooms ≠ some room ∧
    calculate_hrv_positions room now = room := by
  constructor
  · intro hsel
    obtain ⟨c, hc⟩ := needing_isSome (selected_mem rooms room hsel)
    rw [h] at hc
    exact Option.noConfusion hc
  · unfold calculate_hrv_positions
    rw [h]

/-- One pass of `calculate_hrv_positions` keeps all positions in [0, 100]:
either the room is skipped, or each new position is `max(0, min(100, out))`. -/
lemma calculate_hrv_positions_inv (room : Room) (now : ℚ)
    (h : ∀ valve ∈ room.hrv_valves,
      0 ≤ valve.current_position ∧ valve.current_position ≤ 100) :
    ∀ valve ∈ (calculate_hrv_positions room now).hrv_valves,
      0 ≤ valve.current_position ∧ valve.current_position ≤ 100 := by
  unfold calculate_hrv_positions
  cases hct : room.current_temp with
  | none => exact h
  | some current =>
      intro valve hv
      dsimp only at hv
      obtain ⟨v0, -, rfl⟩ := List.mem_map.mp hv
      dsimp only
      exact ⟨le_max_left 0 _, max_le (by norm_num) (min_le_left _ _)⟩

/-- C6: every `update` output lies inside the configured output limits, and
every sequence of valve-position calculations keeps every valve's stored
position inside [0, 100]. -/
theorem controller_and_valve_bounds :
    (∀ (c : PIDController) (t v : ℚ), c.output_limits.1 ≤ c.output_limits.2 →
      c.output_limits.1 ≤ (c.update t v).1 ∧ (c.update t v).1 ≤ c.output_limits.2) ∧
    (∀ (room : Room) (ts : List ℚ),
      (∀ valve ∈ room.hrv_valves,
        0 ≤ valve.current_position ∧ valve.current_position ≤ 100) →
      ∀ valve ∈ (ts.foldl calculate_hrv_positions room).hrv_valves,
        0 ≤ valve.current_position ∧ valve.current_position ≤ 100) := by
  constructor
  · intro c t v h
    obtain ⟨y, hy⟩ := c.update_out_clamped t v
    rw [hy]
    exact c.clamp_output_mem y h
  · intro room ts
    induction ts generalizing room with
    | nil => intro h; exact h
    | cons t rest ih =>
        intro h
        exact ih (calculate_hrv_positions room t) (calculate_hrv_positions_inv room t h)

/-! ## Concrete configuration used by the witnesses -/

/-- A valve as `_load_rooms` builds one (position 0, fresh controller). -/
def demo_valve : HRVValve := HRVValve.init "valve1" "climate.living_valve" 1 (1/10) (1/20)

/-- Room "Living", target 21.0, current 19.0 (difference 2.0). -/
def living : Room :=
  { name := "Living", target_temp := 21, current_temp_sensor := "sensor.living_temp",
    hrv_entity := "climate.living", hrv_valves := [demo_valve], current_temp := some 19 }

/-- Room "Bedroom", target 20.0, current 19.5 (difference 0.5). -/
def bedroom : Room :=
  { name := "Bedroom", target_temp := 20, current_temp_sensor := "sensor.bedroom_temp",
    hrv_entity := "", hrv_valves := [], current_temp := some (39 / 2) }

/-- Room "Hall" with no measurement yet. -/
def hall : Room :=
  { name := "Hall", target_temp := 18, current_temp_sensor := "sensor.hall_temp",
    hrv_entity := "", hrv_valves := [demo_valve], current_temp := none }

/-- The two-room configuration from the specification's scenario. -/
def demo_rooms : List Room := [living, bedroom]

/-- Witness for C3: in the demo configuration both rooms need heating,
"Living" has the larger difference, and the control pair is (21, 19). -/
theorem room_selection_spec_witness :
    ∃ c, living.current_temp = some c ∧
      get_control_temperatures demo_rooms = some (living.target_temp, c) := by
  have hpl : (living.needs_heating && living.current_temp.isSome) = true := by
    norm_num [Room.needs_heating, living]
  have hpb : (bedroom.needs_heating && bedroom.current_temp.isSome) = true := by
    norm_num [Room.needs_heating, bedroom]
  have h1 : rooms_needing_heat demo_rooms = [living, bedroom] := by
    unfold rooms_needing_heat demo_rooms
    simp only [List.filter, hpl, hpb]
  have h2 : pick_max_by Room.get_temperature_difference living [bedroom] = living := by
    have hlt : ¬ (living.get_temperature_difference < bedroom.get_temperature_difference) := by
      norm_num [Room.get_temperature_difference, living, bedroom, abs_of_nonneg]
    simp [pick_max_by, hlt]
  have hsel : get_room_with_highest_difference demo_rooms = some living := by
    rw [get_room_eq, h1]
    show some (pick_max_by Room.get_temperature_difference living [bedroom]) = some living
    rw [h2]
  exact (room_selection_spec demo_rooms).2.2.2.2.1 living hsel

/-- Witness for C7: the measurement-less "Hall" is not selected and keeps
its valves untouched. -/
theorem absent_room_never_selected_witness :
    get_room_with_highest_difference demo_rooms ≠ some hall ∧
    calculate_hrv_positions hall 5 = hall :=
  absent_room_never_selected demo_rooms hall 5 rfl

/-- Witness for C6 at concrete inputs: one update of the demo controller
stays within its `[0, 100]` limits, and two calculation passes over "Living"
keep its valve position in [0, 100]. -/
theorem controller_and_valve_bounds_witness :
    (demo_valve.pid_controller.output_limits.1 ≤ (demo_valve.pid_controller.update 1 5).1 ∧
      (demo_valve.pid_controller.update 1 5).1 ≤ demo_valve.pid_controller.output_limits.2) ∧
    (∀ valve ∈ (([3, 4] : List ℚ).foldl calculate_hrv_positions living).hrv_valves,
      0 ≤ valve.current_position ∧ valve.current_position ≤ 100) :=
  ⟨controller_and_valve_bounds.1 demo_valve.pid_controller 1 5 (by norm_num [demo_valve, HRVValve.init]),
   controller_and_valve_bounds.2 living [3, 4] (by decide)⟩

/-! ## Boiler link transport (opentherm.py, `set_target_temperature` /
`OpenThermController.set_control_temperature`) -/

/-- Python `int()` truncation toward zero on a rational. -/
def py_int_trunc (q : ℚ) : ℤ := if 0 ≤ q then q.floor else -((-q).floor)

/-- `OpenThermProtocol.set_target_temperature(temperature)` with the serial
line open, as a function of the bytes the reply read returns (possibly
empty on timeout).  `temp_value = int(temperature * 10) & 0xFFFF`; an
uncaught exception is `none`; an empty reply is falsy and yields `False`;
a parsed tuple is truthy and yields `True`. -/
def set_target_temperature (temperature : ℚ) (response : List Nat) : Option Bool :=
  let temp_value : Nat := ((py_int_trunc (temperature * 10)) % 65536).toNat
  match create_message 1 1 temp_value with
  | none => none
  | some _msg =>
      if response.isEmpty then some false
      else
        match parse_message response with
        | some _ => some true
        | none => some false

/-- `OpenThermController.set_control_temperature`: report failure when the
controller is not connected, otherwise perform the single exchange. -/
def set_control_temperature (connected : Bool) (target_temp : ℚ)
    (response : List Nat) : Option Bool :=
  if connected then set_target_temperature target_temp response
  else some false

/-- C9: disconnected calls report failure without any exchange, but every
connected call dies with `ValueError` inside `_create_message` (the TSET
write-request cannot be encoded), before anything is written or read —
whatever the reply would have been. -/
theorem set_control_temperature_spec :
    (∀ (t : ℚ) (response : List Nat),
      set_control_temperature false t response = some false) ∧
    (∀ (t : ℚ) (response : List Nat),
      set_control_temperature true t response = none) := by
  constructor
  · intro t response
    rfl
  · intro t response
    show set_target_temperature t response = none
    unfold set_target_temperature
    dsimp only
    rw [create_message_write_tset_none]
